import Mathlib

/-!
Shallow embedding of `pkg/object/httpserver/runtime.go` (the HTTP-server
lifecycle runtime of easegress/easegateway) and of the version check in
`pkg/plugins/python.go`, together with proofs about the claims of the
specification.

Modelling conventions:
* Go durations (`time.Duration`) are nanosecond counts, embedded as `Nat`.
* The `atomic.Value` error cell of the runtime is an `Option String`:
  `none` models a cell that was never stored (a nil Go interface, on which
  calling `Error()` would be a nil dereference); `some s` models a stored
  non-nil error whose `Error()` text is `s`.  The sentinel `errNil`
  (`fmt.Errorf("")`) has text `""`.
* The outcome of `gnet.Listen` for one `startServer` call is an input of
  the step function: `none` means the bind succeeded, `some e` means it
  failed with an error whose text is `e`.
* `time.ParseDuration` is external library code; it is abstracted as a
  function parameter `parse : String → Option Nat` (`none` = parse error).
* Observable side effects of one event (calls to `closeServer`, actual
  graceful shutdowns, calls to `startServer`, done-channel signals) are
  returned alongside the new runtime state in an `Effects` record.
* A Go nil-pointer dereference (e.g. `startServer` with `r.spec == nil`)
  makes the step function return `none` (a crash of the event loop).
-/

/-- Configuration of the HTTP server: the fields of `Spec` that
`runtime.go` reads (port, HTTPS, keep-alive flag and timeout string,
max connections, routing rules, name). -/
structure HTTPSpec where
  port : Nat
  https : Bool
  keepAlive : Bool
  keepAliveTimeout : String
  maxConnections : Nat
  rules : List String
  name : String
deriving DecidableEq, Repr

/-- The states of the runtime: `stateNil`, `stateFailed`, `stateRunning`,
`stateClosed` (runtime.go lines 25-28). -/
inductive StateType where
  | stateNil
  | stateFailed
  | stateRunning
  | stateClosed
deriving DecidableEq, Repr

/-- The configuration baked into a built `http.Server` plus its limit
listener (runtime.go lines 230-242): address port, idle timeout,
keep-alives enabled, TLS on, connection limit. -/
structure ServerHandle where
  addrPort : Nat
  idleTimeout : Nat
  keepAlivesEnabled : Bool
  tlsOn : Bool
  maxConns : Nat
deriving DecidableEq, Repr

/-- The mutable fields of `runtime` that the event loop owns, plus
`muxRules`, the rules currently installed in the mux (the target of
`mux.reloadRules`), and `loopExited`, which records that `fsm` has
returned after a close event. -/
structure Runtime where
  spec : Option HTTPSpec
  server : Option ServerHandle
  startNum : Nat
  state : StateType
  err : Option String
  muxRules : List String
  loopExited : Bool
deriving DecidableEq, Repr

/-- One second in nanoseconds (`time.Second`). -/
def timeSecond : Nat := 1000000000

/-- Embedding of `defaultKeepAliveTimeout = 60 * time.Second` (runtime.go line 21). -/
def defaultKeepAliveTimeout : Nat := 60 * timeSecond

/-- The sentinel error `errNil = fmt.Errorf("")` (runtime.go line 34):
its `Error()` text is the empty string. -/
def errNil : String := ""

/-- Embedding of `setState`: stores into the state cell (runtime.go lines 176-178). -/
def setState (r : Runtime) (s : StateType) : Runtime :=
  { r with state := s }

/-- Embedding of `setError` (runtime.go lines 184-191): a nil error stores the sentinel
`errNil`; a non-nil error is re-wrapped by `fmt.Errorf("%v", err)`, which
preserves its text.  In both cases the cell ends up holding a non-nil
error value. -/
def setError (r : Runtime) (e : Option String) : Runtime :=
  match e with
  | none => { r with err := some errNil }
  | some s => { r with err := some s }

/-- The status snapshot assembled by `Status()` (runtime.go lines 110-117):
it reads the state cell and calls `Error()` on the loaded error value.
`error = none` marks the nil-dereference failure mode in which the error
cell holds a nil value. -/
structure StatusView where
  state : StateType
  error : Option String
deriving DecidableEq, Repr

/-- Embedding of `Status()` (runtime.go lines 110-117), restricted to the lifecycle
fields (the statistics and top-N snapshots are external collaborators). -/
def runtimeStatus (r : Runtime) : StatusView :=
  { state := r.state, error := r.err }

/-- Observable side effects of handling one event: how many times
`closeServer` was invoked, how many actual graceful shutdowns happened
(`closeServer` with a non-nil `r.server`), how many times `startServer`
was invoked, and how many done channels were closed. -/
structure Effects where
  closeCalls : Nat
  shutdowns : Nat
  startCalls : Nat
  doneSignals : Nat
deriving DecidableEq, Repr

/-- The no-effect record. -/
def noEff : Effects := ⟨0, 0, 0, 0⟩

/-- Pointwise sum of two effect records. -/
def Effects.add (a b : Effects) : Effects :=
  ⟨a.closeCalls + b.closeCalls, a.shutdowns + b.shutdowns,
   a.startCalls + b.startCalls, a.doneSignals + b.doneSignals⟩

/-- Embedding of `needRestartServer` (runtime.go lines 201-208): copy both specs, blank
out the `Rules` field of each copy, and restart exactly when the copies
are not deeply equal. -/
def needRestartServer (cur next : HTTPSpec) : Bool :=
  decide (¬ ({ cur with rules := [] } = { next with rules := [] }))

/-- Resolution of the keep-alive idle timeout at the top of `startServer`
(runtime.go lines 211-220): start from the default; if the configured
string is non-empty try to parse it; on parse failure log and keep the
default, otherwise use the parsed value. -/
def resolveKeepAliveTimeout (kat : String) (parse : String → Option Nat) : Nat :=
  if kat = "" then defaultKeepAliveTimeout
  else
    match parse kat with
    | none => defaultKeepAliveTimeout
    | some t => t

/-- Embedding of `startServer` (runtime.go lines 210-263).  Dereferences `r.spec`
(crash—`none`—when it is nil).  On bind failure: state `failed`, record
the bind error, return with no other change.  On success: build the
server handle, store it, increment `startNum`, state `running`, clear the
error.  The spawned serve goroutine itself is not part of the runtime
state; its failure report arrives later as a `serveFailed` event. -/
def startServer (r : Runtime) (parse : String → Option Nat)
    (bindRes : Option String) : Option (Runtime × Effects) :=
  match r.spec with
  | none => none
  | some sp =>
    let kat := resolveKeepAliveTimeout sp.keepAliveTimeout parse
    match bindRes with
    | some e => some (setError (setState r .stateFailed) (some e), ⟨0, 0, 1, 0⟩)
    | none =>
      let srv : ServerHandle :=
        { addrPort := sp.port
          idleTimeout := kat
          keepAlivesEnabled := sp.keepAlive
          tlsOn := sp.https
          maxConns := sp.maxConnections }
      some (setError
              (setState { r with server := some srv, startNum := r.startNum + 1 }
                .stateRunning)
              none,
            ⟨0, 0, 1, 0⟩)

/-- Embedding of `closeServer` (runtime.go lines 265-277): no-op when no server handle
is present; otherwise a bounded graceful shutdown whose error is only
logged.  No runtime field changes either way (in particular `r.server` is
not cleared). -/
def closeServer (r : Runtime) : Runtime × Effects :=
  match r.server with
  | none => (r, ⟨1, 0, 0, 0⟩)
  | some _ => (r, ⟨1, 1, 0, 0⟩)

/-- Embedding of `reload` (runtime.go lines 147-174): first hot-swap the mux rules
whenever the next spec is non-nil; then the four-way nil analysis: both
nil logs a bug and does nothing; fresh spec starts the server; nil next
spec logs a bug, clears `r.spec` and closes the server; both present
restarts (close then start) when `needRestartServer`, else only replaces
`r.spec`.  In the source `mux.reloadRules(nextSpec)` runs once before the
switch whenever `nextSpec != nil`; since the switch never reads the mux,
that assignment is inlined here into each `nextSpec != nil` branch. -/
def reload (r : Runtime) (nextSpec : Option HTTPSpec)
    (parse : String → Option Nat) (bindRes : Option String) :
    Option (Runtime × Effects) :=
  match r.spec, nextSpec with
  | none, none => some (r, noEff)
  | none, some ns =>
    startServer { r with muxRules := ns.rules, spec := some ns } parse bindRes
  | some _, none => some (closeServer { r with spec := none })
  | some cur, some ns =>
    if needRestartServer cur ns then
      let p := closeServer { r with muxRules := ns.rules, spec := some ns }
      match startServer p.1 parse bindRes with
      | none => none
      | some (r3, e2) => some (r3, p.2.add e2)
    else
      some ({ r with muxRules := ns.rules, spec := some ns }, noEff)

/-- Embedding of `handleEventServeFailed` (runtime.go lines 298-304): a report whose
captured `startNum` is older than the current one is ignored; otherwise
state `failed` and the carried error is recorded. -/
def handleEventServeFailed (r : Runtime) (sn : Nat) (e : String) : Runtime :=
  if r.startNum > sn then r
  else setError (setState r .stateFailed) (some e)

/-- Embedding of `handleEventCheckFailed` (runtime.go lines 292-296): retry the start
only when the state is `failed`. -/
def handleEventCheckFailed (r : Runtime) (parse : String → Option Nat)
    (bindRes : Option String) : Option (Runtime × Effects) :=
  if r.state = .stateFailed then startServer r parse bindRes
  else some (r, noEff)

/-- Embedding of `handleEventClose` (runtime.go lines 310-313): close the server and
close the done channel.  The `fsm` loop then returns (modelled by
`loopExited := true`).  Note that no state is stored here: the handler
never writes `stateClosed`. -/
def handleEventClose (r : Runtime) : Runtime × Effects :=
  let (r2, e) := closeServer r
  ({ r2 with loopExited := true },
   { e with doneSignals := e.doneSignals + 1 })

/-- The typed events of the fsm (runtime.go lines 41-48).  `serveFailed`
carries the `startNum` captured when the serve goroutine was launched and
the text of the serve error. -/
inductive Event where
  | start
  | checkFailed
  | serveFailed (startNum : Nat) (err : String)
  | reload (nextSpec : Option HTTPSpec)
  | close
deriving DecidableEq, Repr

/-- One input consumed by the event loop: the event plus the outcome of
`gnet.Listen` should a bind be attempted while handling it (`none` =
success, `some e` = bind failure with error text `e`). -/
structure Input where
  event : Event
  bindRes : Option String
deriving DecidableEq, Repr

/-- The body of `fsm` (runtime.go lines 120-141) for one event: after the
loop has returned (a close was handled) further events sit unprocessed in
the channel, leaving the runtime unchanged; otherwise dispatch on the
event type. -/
def handleEvent (r : Runtime) (e : Event) (parse : String → Option Nat)
    (bindRes : Option String) : Option (Runtime × Effects) :=
  if r.loopExited then some (r, noEff)
  else
    match e with
    | .start => startServer r parse bindRes
    | .checkFailed => handleEventCheckFailed r parse bindRes
    | .serveFailed sn err => some (handleEventServeFailed r sn err, noEff)
    | .reload ns => reload r ns parse bindRes
    | .close => some (handleEventClose r)

/-- One step of the event loop, discarding the effect record. -/
def step (parse : String → Option Nat) (r : Runtime) (i : Input) :
    Option Runtime :=
  (handleEvent r i.event parse i.bindRes).map Prod.fst

/-- The runtime as `newRuntime` builds it (runtime.go lines 83-100):
no spec, no server, `startNum = 0`, state `stateNil`, the sentinel error
`errNil` stored, an empty mux, event loop running. -/
def initRuntime : Runtime :=
  { spec := none
    server := none
    startNum := 0
    state := .stateNil
    err := some errNil
    muxRules := []
    loopExited := false }

/-- Run the event loop from a given runtime over a list of inputs;
`none` models a crash (nil dereference) somewhere along the way. -/
def runFrom (parse : String → Option Nat) (r : Runtime) (evs : List Input) :
    Option Runtime :=
  evs.foldlM (step parse) r

/-- Run the event loop from the freshly constructed runtime. -/
def run (parse : String → Option Nat) (evs : List Input) : Option Runtime :=
  runFrom parse initRuntime evs

/-- The successive values of the `(state, err)` pair of atomic cells that
a concurrent `Status()` can observe while `startServer` performs its two
separate stores (runtime.go lines 224-225 on bind failure, lines 246-247
on success): after `setState` but before `setError`, and after both. -/
def startServerStoreTrace (r : Runtime) (bindRes : Option String) :
    List (StateType × Option String) :=
  match bindRes with
  | some e => [(.stateFailed, r.err), (.stateFailed, some e)]
  | none => [(.stateRunning, r.err), (.stateRunning, some errNil)]

/-- Embedding of `strings.TrimSpace` over the character list of a string:
drop whitespace from both ends. -/
def trimSpace (s : String) : String :=
  ⟨((s.data.dropWhile Char.isWhitespace).reverse.dropWhile
      Char.isWhitespace).reverse⟩

/-- The fields of `pythonConfig` that `Prepare` reads and writes
(python.go lines 15-20): the `Version` string and the interpreter
command `cmd`. -/
structure PythonConfig where
  version : String
  cmd : String
deriving DecidableEq, Repr

/-- Embedding of `pythonConfig.Prepare` (python.go lines 33-58).  The embedded
`interpreterRunnerConfig.Prepare` is outside the provided sources, so its
outcome is abstracted as the parameter `baseErr` (`none` = success);
`interpreterRuns` abstracts whether `exec.Command(cmd, "-c", "").Run()`
succeeds.  `Version` is whitespace-trimmed (`strings.TrimSpace`, embedded
as `trimSpace`), then "2"/"3" select the interpreter command while
anything else is an error.  An unavailable interpreter only logs a
warning (the returned `Bool` records that the warning fired) and never
fails `Prepare`. -/
def pythonPrepare (c : PythonConfig) (baseErr : Option String)
    (interpreterRuns : Bool) : Except String PythonConfig × Bool :=
  match baseErr with
  | some e => (.error e, false)
  | none =>
    let c1 := { c with version := trimSpace c.version }
    match c1.version with
    | "2" => (.ok { c1 with cmd := "python2" }, !interpreterRuns)
    | "3" => (.ok { c1 with cmd := "python3" }, !interpreterRuns)
    | _ => (.error "invalid python version", false)

/-- Bind-error and serve-error texts of an input are non-empty (true of
every error produced by `net.Listen` and `http.Server.Serve`). -/
def goodMsgs (i : Input) : Bool :=
  (match i.bindRes with
   | some e => !(e == "")
   | none => true) &&
  (match i.event with
   | .serveFailed _ e => !(e == "")
   | _ => true)

/-- A sample configuration used by the concrete theorems below. -/
def sp8080 : HTTPSpec :=
  { port := 8080
    https := false
    keepAlive := true
    keepAliveTimeout := ""
    maxConnections := 100
    rules := ["ruleA"]
    name := "server" }

/-- The sample configuration with only the port changed. -/
def sp9090 : HTTPSpec := { sp8080 with port := 9090 }

/-- The sample configuration with only the rules changed. -/
def sp8080B : HTTPSpec := { sp8080 with rules := ["ruleB"] }

/-- A parse oracle under which every duration string is unparsable. -/
def parse0 : String → Option Nat := fun _ => none

/-- The runtime reached from `initRuntime` by a reload carrying `sp8080`
whose bind succeeds. -/
def rRunning : Runtime :=
  { spec := some sp8080
    server := some { addrPort := 8080
                     idleTimeout := defaultKeepAliveTimeout
                     keepAlivesEnabled := true
                     tlsOn := false
                     maxConns := 100 }
    startNum := 1
    state := .stateRunning
    err := some errNil
    muxRules := ["ruleA"]
    loopExited := false }

/-- The runtime reached from `initRuntime` by a reload carrying `sp8080`
whose bind fails. -/
def rFailedBind : Runtime :=
  { spec := some sp8080
    server := none
    startNum := 0
    state := .stateFailed
    err := some "listen tcp :8080: address already in use"
    muxRules := ["ruleA"]
    loopExited := false }

/-- The runtime reached from `rRunning` by an honored serve-failed
report. -/
def rFailedServe : Runtime :=
  { rRunning with
    state := .stateFailed
    err := some "serve: connection reset" }

/-- Unpacking a successful `startServer`: the spec and the loop flag are
untouched; on a bind failure the state is `failed`, the bind error is
recorded and `startNum` is unchanged, while on success the state is
`running`, the error is cleared and `startNum` is incremented. -/
theorem startServer_result {r : Runtime} {parse : String → Option Nat}
    {b : Option String} {r' : Runtime} {eff : Effects}
    (h : startServer r parse b = some (r', eff)) :
    r'.spec = r.spec ∧ r'.loopExited = r.loopExited ∧
    ((∃ e, b = some e ∧ r'.state = .stateFailed ∧ r'.err = some e ∧
        r'.startNum = r.startNum) ∨
     (b = none ∧ r'.state = .stateRunning ∧ r'.err = some errNil ∧
        r'.startNum = r.startNum + 1)) := by
  cases hsp : r.spec with
  | none => simp [startServer, hsp] at h
  | some sp =>
    cases b with
    | some e =>
      simp only [startServer, hsp] at h
      obtain ⟨h1, _⟩ := Prod.mk.injEq .. ▸ Option.some.inj h
      subst h1
      simp [setError, setState, hsp]
    | none =>
      simp only [startServer, hsp] at h
      obtain ⟨h1, _⟩ := Prod.mk.injEq .. ▸ Option.some.inj h
      subst h1
      simp [setError, setState, hsp]

/-- The first component of `closeServer` is the unchanged runtime. -/
theorem closeServer_fst (r : Runtime) : (closeServer r).1 = r := by
  cases hs : r.server <;> simp [closeServer, hs]

/-- Unpacking `reload`: the possible shapes of the resulting runtime. -/
theorem reload_result {r : Runtime} {ns : Option HTTPSpec}
    {parse : String → Option Nat} {b : Option String} {r' : Runtime}
    {eff : Effects} (h : reload r ns parse b = some (r', eff)) :
    (r' = r) ∨
    (∃ ns', ns = some ns' ∧
      ∃ e2, startServer { r with muxRules := ns'.rules, spec := some ns' }
        parse b = some (r', e2)) ∨
    (ns = none ∧ r' = { r with spec := none }) ∨
    (∃ ns', ns = some ns' ∧
      r' = { r with muxRules := ns'.rules, spec := some ns' }) := by
  cases hns : ns with
  | none =>
    cases hsp : r.spec with
    | none =>
      left
      simp only [reload, hns, hsp] at h
      exact ((Prod.mk.injEq .. ▸ Option.some.inj h).1).symm
    | some c =>
      right; right; left
      refine ⟨rfl, ?_⟩
      simp only [reload, hns, hsp] at h
      have h2 := congrArg Prod.fst (Option.some.inj h)
      rw [closeServer_fst] at h2
      exact h2.symm
  | some ns' =>
    cases hsp : r.spec with
    | none =>
      right; left
      refine ⟨ns', rfl, eff, ?_⟩
      simp only [reload, hns, hsp] at h
      exact h
    | some c =>
      by_cases hr : needRestartServer c ns' = true
      · right; left
        refine ⟨ns', rfl, ?_⟩
        simp only [reload, hns, hsp, hr, if_true, closeServer_fst] at h
        cases hss : startServer { r with muxRules := ns'.rules, spec := some ns' }
            parse b with
        | none => rw [hss] at h; simp at h
        | some p =>
          rw [hss] at h
          cases p with
          | mk p1 p2 =>
            simp only at h
            have h2 := (Prod.mk.injEq .. ▸ Option.some.inj h).1
            exact ⟨p2, by rw [h2]⟩
      · right; right; right
        refine ⟨ns', rfl, ?_⟩
        simp only [reload, hns, hsp, hr, if_false] at h
        exact ((Prod.mk.injEq .. ▸ Option.some.inj h).1).symm

/-- The first component of `handleEventClose` only flips the loop flag. -/
theorem handleEventClose_fst (r : Runtime) :
    (handleEventClose r).1 = { r with loopExited := true } := by
  cases hs : r.server <;> simp [handleEventClose, closeServer, hs]

/-- Unpacking one step of the event loop: either the (state, err) pair is
untouched, or the runtime just entered `running` with the error cleared,
or it just entered `failed`, recording an error text carried by the input
(its bind outcome or its serve-failed report). -/
theorem step_state_err {parse : String → Option Nat} {r : Runtime}
    {i : Input} {r' : Runtime} (h : step parse r i = some r') :
    (r'.state = r.state ∧ r'.err = r.err) ∨
    (r'.state = .stateRunning ∧ r'.err = some errNil) ∨
    (∃ e, r'.state = .stateFailed ∧ r'.err = some e ∧
      (i.bindRes = some e ∨ ∃ sn, i.event = .serveFailed sn e)) := by
  obtain ⟨ev, b⟩ := i
  by_cases hl : r.loopExited
  · left
    simp only [step, handleEvent, hl, if_true, Option.map_some'] at h
    obtain rfl := Option.some.inj h
    exact ⟨rfl, rfl⟩
  · rw [step, handleEvent.eq_def, if_neg hl] at h
    cases ev with
    | start =>
      obtain ⟨⟨r1, eff⟩, hs, rfl⟩ := Option.map_eq_some'.mp h
      obtain ⟨-, -, hcase⟩ := startServer_result hs
      rcases hcase with ⟨e, hb, h1, h2, -⟩ | ⟨hb, h1, h2, -⟩
      · exact Or.inr (Or.inr ⟨e, h1, h2, Or.inl hb⟩)
      · exact Or.inr (Or.inl ⟨h1, h2⟩)
    | checkFailed =>
      rw [handleEventCheckFailed] at h
      by_cases hf : r.state = .stateFailed
      · rw [if_pos hf] at h
        obtain ⟨⟨r1, eff⟩, hs, rfl⟩ := Option.map_eq_some'.mp h
        obtain ⟨-, -, hcase⟩ := startServer_result hs
        rcases hcase with ⟨e, hb, h1, h2, -⟩ | ⟨hb, h1, h2, -⟩
        · exact Or.inr (Or.inr ⟨e, h1, h2, Or.inl hb⟩)
        · exact Or.inr (Or.inl ⟨h1, h2⟩)
      · rw [if_neg hf, Option.map_some'] at h
        obtain rfl := Option.some.inj h
        exact Or.inl ⟨rfl, rfl⟩
    | serveFailed sn e =>
      rw [Option.map_some'] at h
      obtain rfl := Option.some.inj h
      rw [handleEventServeFailed]
      by_cases hst : r.startNum > sn
      · rw [if_pos hst]
        exact Or.inl ⟨rfl, rfl⟩
      · rw [if_neg hst]
        exact Or.inr (Or.inr ⟨e, rfl, rfl, Or.inr ⟨sn, rfl⟩⟩)
    | reload ns =>
      obtain ⟨⟨r1, eff⟩, hs, rfl⟩ := Option.map_eq_some'.mp h
      rcases reload_result hs with
        rfl | ⟨ns', -, e2, hss⟩ | ⟨-, rfl⟩ | ⟨ns', -, rfl⟩
      · exact Or.inl ⟨rfl, rfl⟩
      · obtain ⟨-, -, hcase⟩ := startServer_result hss
        rcases hcase with ⟨e, hb, h1, h2, -⟩ | ⟨hb, h1, h2, -⟩
        · exact Or.inr (Or.inr ⟨e, h1, h2, Or.inl hb⟩)
        · exact Or.inr (Or.inl ⟨h1, h2⟩)
      · exact Or.inl ⟨rfl, rfl⟩
      · exact Or.inl ⟨rfl, rfl⟩
    | close =>
      rw [Option.map_some'] at h
      obtain rfl := Option.some.inj h
      rw [handleEventClose_fst]
      exact Or.inl ⟨rfl, rfl⟩

/-- Induction principle for runs of the event loop: an invariant that
every non-crashing step preserves (for inputs satisfying `pre`) holds at
the end of every non-crashing run over such inputs. -/
theorem runFrom_inv (parse : String → Option Nat) (inv : Runtime → Prop)
    (pre : Input → Prop)
    (hstep : ∀ r i r', inv r → pre i → step parse r i = some r' → inv r') :
    ∀ (evs : List Input) (r r' : Runtime), (∀ i ∈ evs, pre i) → inv r →
      runFrom parse r evs = some r' → inv r' := by
  intro evs
  induction evs with
  | nil =>
    intro r r' _ hr hrun
    simp only [runFrom, List.foldlM_nil] at hrun
    exact (Option.some.inj hrun) ▸ hr
  | cons i evs ih =>
    intro r r' hpre hr hrun
    rw [runFrom, List.foldlM_cons] at hrun
    cases hs : step parse r i with
    | none => rw [hs] at hrun; simp at hrun
    | some r1 =>
      rw [hs] at hrun
      simp only [Option.bind_eq_bind, Option.some_bind] at hrun
      exact ih r1 r' (fun j hj => hpre j (List.mem_cons_of_mem _ hj))
        (hstep r i r1 hr (hpre i (List.mem_cons_self _ _)) hs) hrun

/-- The boundary invariant: at every event boundary the state is never
`stateClosed`, a running state comes with the cleared sentinel error, and
the error cell is never nil. -/
def BoundaryInv (r : Runtime) : Prop :=
  r.state ≠ .stateClosed ∧ (r.state = .stateRunning → r.err = some errNil) ∧
    r.err ≠ none

/-- Every runtime reachable by a non-crashing run satisfies the boundary
invariant. -/
theorem reachable_boundaryInv {parse : String → Option Nat}
    {evs : List Input} {r : Runtime} (h : run parse evs = some r) :
    BoundaryInv r := by
  rw [run] at h
  refine runFrom_inv parse BoundaryInv (fun _ => True) ?_ evs initRuntime r
    (fun _ _ => trivial) ⟨by simp [initRuntime], fun _ => rfl, by simp [initRuntime]⟩ h
  intro r0 i r' hr _ hs
  rcases step_state_err hs with ⟨h1, h2⟩ | ⟨h1, h2⟩ | ⟨e, h1, h2, -⟩
  · refine ⟨?_, ?_, ?_⟩
    · rw [h1]; exact hr.1
    · intro hrn; rw [h2]; exact hr.2.1 (h1 ▸ hrn)
    · rw [h2]; exact hr.2.2
  · exact ⟨by rw [h1]; simp, fun _ => h2, by rw [h2]; simp⟩
  · refine ⟨by rw [h1]; simp, ?_, by rw [h2]; simp⟩
    intro hrn
    rw [h1] at hrn
    simp at hrn

/-- The sentinel invariant: the error cell holds the sentinel empty text
exactly when the runtime is not in the failed state. -/
def ErrSentinelInv (r : Runtime) : Prop :=
  r.err = some errNil ↔ r.state ≠ .stateFailed

/-- An error carried into a failed transition by an input with non-empty
failure messages is itself non-empty. -/
theorem goodMsgs_carried_nonempty {i : Input} {e : String}
    (hg : goodMsgs i = true)
    (hsrc : i.bindRes = some e ∨ ∃ sn, i.event = .serveFailed sn e) :
    e ≠ "" := by
  rw [goodMsgs, Bool.and_eq_true] at hg
  obtain ⟨hg1, hg2⟩ := hg
  rcases hsrc with hb | ⟨sn, hev⟩
  · rw [hb] at hg1
    simpa using hg1
  · rw [hev] at hg2
    simpa using hg2

/-- Every runtime reachable by a non-crashing run over inputs with
non-empty failure messages satisfies the sentinel invariant. -/
theorem reachable_errSentinel {parse : String → Option Nat}
    {evs : List Input} {r : Runtime}
    (hall : ∀ i ∈ evs, goodMsgs i = true) (h : run parse evs = some r) :
    ErrSentinelInv r := by
  rw [run] at h
  refine runFrom_inv parse ErrSentinelInv (fun i => goodMsgs i = true) ?_ evs
    initRuntime r hall ?_ h
  · intro r0 i r' hr hi hs
    rcases step_state_err hs with ⟨h1, h2⟩ | ⟨h1, h2⟩ | ⟨e, h1, h2, hsrc⟩
    · rw [ErrSentinelInv, h1, h2]; exact hr
    · rw [ErrSentinelInv, h1, h2]; simp
    · have hne := goodMsgs_carried_nonempty hi hsrc
      rw [ErrSentinelInv, h1, h2]
      simp [errNil, hne]
  · rw [ErrSentinelInv]
    simp [initRuntime, errNil]

/-- A variant of `sp8080` with an unparsable keep-alive duration
string. -/
def spBadKAT : HTTPSpec := { sp8080 with keepAliveTimeout := "banana" }

/-- The transition edges asserted by the specification: uninitialized →
running, running → failed, failed → running, failed → closed, running →
closed. -/
def claimedStateEdges : List (StateType × StateType) :=
  [(.stateNil, .stateRunning), (.stateRunning, .stateFailed),
   (.stateFailed, .stateRunning), (.stateFailed, .stateClosed),
   (.stateRunning, .stateClosed)]

/-- The transition edges the code actually takes: the claimed live edges
plus uninitialized → failed (a first bind failure); the closed edges
never occur because `stateClosed` is never stored. -/
def amendedStateEdges : List (StateType × StateType) :=
  [(.stateNil, .stateRunning), (.stateNil, .stateFailed),
   (.stateRunning, .stateFailed), (.stateFailed, .stateRunning)]

/-- The runtime produced by reloading `rFailedBind` with `sp9090` when
the new bind also fails. -/
def rFailedBind9090 : Runtime :=
  { rFailedBind with
    spec := some sp9090
    err := some "listen tcp :9090: address already in use" }

/-- C1 (confirmed): a serve-failed event whose carried generation is
older than the runtime's current generation leaves the whole runtime — in
particular state and lastError — unchanged; otherwise it sets the state
to failed and records the carried error. -/
theorem serveFailed_stale_is_noop (r : Runtime) (sn : Nat) (e : String) :
    (sn < r.startNum → handleEventServeFailed r sn e = r) ∧
    (r.startNum ≤ sn →
      (handleEventServeFailed r sn e).state = .stateFailed ∧
      (handleEventServeFailed r sn e).err = some e) := by
  constructor
  · intro hlt
    rw [handleEventServeFailed, if_pos hlt]
  · intro hle
    rw [handleEventServeFailed, if_neg (Nat.not_lt.mpr hle)]
    exact ⟨rfl, rfl⟩

/-- Witness for C1 at concrete inputs: a report carrying generation 1
against current generation 2 is dropped; one carrying generation 2 is
honored. -/
theorem serveFailed_stale_is_noop_witness :
    (handleEventServeFailed { initRuntime with startNum := 2 } 1 "boom"
        = { initRuntime with startNum := 2 }) ∧
    ((handleEventServeFailed { initRuntime with startNum := 2 } 2 "boom").state
        = .stateFailed ∧
     (handleEventServeFailed { initRuntime with startNum := 2 } 2 "boom").err
        = some "boom") :=
  ⟨(serveFailed_stale_is_noop { initRuntime with startNum := 2 } 1 "boom").1
      (by decide),
   (serveFailed_stale_is_noop { initRuntime with startNum := 2 } 2 "boom").2
      (by decide)⟩

/-- C2 (code_bug): handling a close event on a running runtime performs
the graceful shutdown, signals the done channel and makes the loop exit —
after which every further event (here a check-failed retry tick) is
absorbed unchanged — but it never stores `stateClosed`: the state remains
`stateRunning`, contradicting the claim, and the watchdog's only
termination test (`state == stateClosed` in `checkFailed`) can never
fire. -/
theorem close_leaves_state_unclosed :
    run parse0 [⟨.reload (some sp8080), none⟩] = some rRunning ∧
    handleEvent rRunning .close parse0 none =
      some ({ rRunning with loopExited := true }, ⟨1, 1, 0, 1⟩) ∧
    ({ rRunning with loopExited := true } : Runtime).state = .stateRunning ∧
    (StateType.stateRunning ≠ .stateClosed) ∧
    step parse0 { rRunning with loopExited := true } ⟨.checkFailed, none⟩ =
      some { rRunning with loopExited := true } := by
  refine ⟨by decide, by decide, rfl, by decide, by decide⟩

/-- C3 counterexample: a first start whose bind fails moves the state
from `stateNil` straight to `stateFailed`, an edge absent from the
claimed transition list. -/
theorem first_bind_failure_takes_unlisted_edge :
    initRuntime.state = .stateNil ∧
    run parse0 [⟨.reload (some sp8080),
        some "listen tcp :8080: address already in use"⟩] = some rFailedBind ∧
    rFailedBind.state = .stateFailed ∧
    (StateType.stateNil, StateType.stateFailed) ∉ claimedStateEdges := by
  refine ⟨rfl, by decide, rfl, by decide⟩

/-- C3 amended (corrected): a reachable runtime never holds state
`stateClosed` (so closed is trivially terminal), and every state change
performed by one further processed event follows one of the edges
uninitialized → running, uninitialized → failed, running → failed,
failed → running. -/
theorem state_changes_follow_amended_edges (parse : String → Option Nat)
    (evs : List Input) (r : Runtime) (i : Input) (r' : Runtime)
    (hr : run parse evs = some r) (hs : step parse r i = some r') :
    r.state ≠ .stateClosed ∧
    (r'.state = r.state ∨ (r.state, r'.state) ∈ amendedStateEdges) := by
  have hb := reachable_boundaryInv hr
  refine ⟨hb.1, ?_⟩
  rcases step_state_err hs with ⟨h1, -⟩ | ⟨h1, -⟩ | ⟨e, h1, -, -⟩
  · exact Or.inl h1
  · by_cases hsame : r.state = .stateRunning
    · exact Or.inl (h1.trans hsame.symm)
    · right
      rw [h1]
      cases hst : r.state with
      | stateNil => decide
      | stateFailed => decide
      | stateRunning => exact absurd hst hsame
      | stateClosed => exact absurd hst hb.1
  · by_cases hsame : r.state = .stateFailed
    · exact Or.inl (h1.trans hsame.symm)
    · right
      rw [h1]
      cases hst : r.state with
      | stateNil => decide
      | stateFailed => exact absurd hst hsame
      | stateRunning => decide
      | stateClosed => exact absurd hst hb.1

/-- Witness for the amended C3 at a concrete run: after a failed first
bind, a watchdog retry whose bind succeeds moves failed to running, an
amended edge. -/
theorem state_changes_follow_amended_edges_witness :
    rFailedBind.state ≠ .stateClosed ∧
    (rRunning.state = rFailedBind.state ∨
      (rFailedBind.state, rRunning.state) ∈ amendedStateEdges) :=
  state_changes_follow_amended_edges parse0
    [⟨.reload (some sp8080), some "listen tcp :8080: address already in use"⟩]
    rFailedBind ⟨.checkFailed, none⟩ rRunning (by decide) (by decide)

/-- C4 (confirmed): a reload whose next configuration agrees with the
current one everywhere except possibly the routing rules performs no
server stop and no server start: the generation counter, server handle,
state and lastError are untouched, only currentSpec is replaced and the
mux rules are hot-swapped, with an empty effect record. -/
theorem reload_rules_only_hot_swaps (r : Runtime) (cur ns : HTTPSpec)
    (parse : String → Option Nat) (b : Option String)
    (hloop : r.loopExited = false) (hspec : r.spec = some cur)
    (hsame : ({ cur with rules := [] } : HTTPSpec)
      = { ns with rules := [] }) :
    handleEvent r (.reload (some ns)) parse b =
      some ({ r with muxRules := ns.rules, spec := some ns }, noEff) := by
  have hnr : needRestartServer cur ns = false := by
    rw [needRestartServer, hsame]
    simp
  simp [handleEvent, hloop, reload, hspec, hnr]

/-- Witness for C4 at a concrete input: reloading the running runtime
with a configuration differing only in rules replaces the spec and the
mux rules and nothing else, with no stop/start effects. -/
theorem reload_rules_only_hot_swaps_witness :
    handleEvent rRunning (.reload (some sp8080B)) parse0 none =
      some ({ rRunning with muxRules := sp8080B.rules, spec := some sp8080B },
        noEff) :=
  reload_rules_only_hot_swaps rRunning sp8080 sp8080B parse0 none rfl rfl
    (by decide)

/-- C5 counterexample: with the current spec present but no live server
(the first bind failed), a reload to a materially different spec whose
bind also fails performs no actual shutdown and leaves the generation
counter unchanged instead of incrementing it by 1. -/
theorem material_reload_without_generation_increment :
    needRestartServer sp8080 sp9090 = true ∧
    run parse0 [⟨.reload (some sp8080),
        some "listen tcp :8080: address already in use"⟩] = some rFailedBind ∧
    handleEvent rFailedBind (.reload (some sp9090)) parse0
        (some "listen tcp :9090: address already in use") =
      some (rFailedBind9090, ⟨1, 0, 1, 0⟩) ∧
    rFailedBind9090.startNum = rFailedBind.startNum ∧
    rFailedBind.startNum + 1 ≠ rFailedBind.startNum := by
  refine ⟨by decide, by decide, by decide, rfl, by decide⟩

/-- C5 amended (corrected): a reload whose next configuration differs
from the present one outside the rules invokes the server-close routine
exactly once and the server-start routine exactly once (the close is an
actual graceful shutdown precisely when a server instance is live), and
the generation counter increments by exactly 1 when the new bind
succeeds, while a failed bind leaves it unchanged with the state
failed. -/
theorem material_reload_one_close_one_start (r : Runtime) (cur ns : HTTPSpec)
    (parse : String → Option Nat) (b : Option String)
    (hloop : r.loopExited = false) (hspec : r.spec = some cur)
    (hrestart : needRestartServer cur ns = true) :
    ∃ r' eff, handleEvent r (.reload (some ns)) parse b = some (r', eff) ∧
      eff.closeCalls = 1 ∧ eff.startCalls = 1 ∧ eff.doneSignals = 0 ∧
      eff.shutdowns = (if r.server = none then 0 else 1) ∧
      (b = none → r'.startNum = r.startNum + 1 ∧ r'.state = .stateRunning) ∧
      (∀ e, b = some e → r'.startNum = r.startNum ∧
        r'.state = .stateFailed) := by
  cases hsrv : r.server with
  | none =>
    cases b with
    | none =>
      refine ⟨setError (setState { r with
          muxRules := ns.rules
          spec := some ns
          server := some { addrPort := ns.port
                           idleTimeout :=
                             resolveKeepAliveTimeout ns.keepAliveTimeout parse
                           keepAlivesEnabled := ns.keepAlive
                           tlsOn := ns.https
                           maxConns := ns.maxConnections }
          startNum := r.startNum + 1 } .stateRunning) none,
        ⟨1, 0, 1, 0⟩, ?_, rfl, rfl, rfl, by simp, fun _ => ⟨rfl, rfl⟩,
        fun e he => nomatch he⟩
      simp [handleEvent, hloop, reload, hspec, hrestart, closeServer, hsrv,
        startServer, Effects.add, setError, setState]
    | some e =>
      refine ⟨setError (setState { r with
          muxRules := ns.rules
          spec := some ns } .stateFailed) (some e),
        ⟨1, 0, 1, 0⟩, ?_, rfl, rfl, rfl, by simp, ?_, ?_⟩
      · simp [handleEvent, hloop, reload, hspec, hrestart, closeServer, hsrv,
          startServer, Effects.add, setError, setState]
      · intro hb
        exact absurd hb (by simp)
      · intro e' he'
        exact ⟨rfl, rfl⟩
  | some srv =>
    cases b with
    | none =>
      refine ⟨setError (setState { r with
          muxRules := ns.rules
          spec := some ns
          server := some { addrPort := ns.port
                           idleTimeout :=
                             resolveKeepAliveTimeout ns.keepAliveTimeout parse
                           keepAlivesEnabled := ns.keepAlive
                           tlsOn := ns.https
                           maxConns := ns.maxConnections }
          startNum := r.startNum + 1 } .stateRunning) none,
        ⟨1, 1, 1, 0⟩, ?_, rfl, rfl, rfl, by simp, fun _ => ⟨rfl, rfl⟩,
        fun e he => nomatch he⟩
      simp [handleEvent, hloop, reload, hspec, hrestart, closeServer, hsrv,
        startServer, Effects.add, setError, setState]
    | some e =>
      refine ⟨setError (setState { r with
          muxRules := ns.rules
          spec := some ns } .stateFailed) (some e),
        ⟨1, 1, 1, 0⟩, ?_, rfl, rfl, rfl, by simp, ?_, ?_⟩
      · simp [handleEvent, hloop, reload, hspec, hrestart, closeServer, hsrv,
          startServer, Effects.add, setError, setState]
      · intro hb
        exact absurd hb (by simp)
      · intro e' he'
        exact ⟨rfl, rfl⟩

/-- Witness for the amended C5 at a concrete input: reloading the running
runtime to the different port with a successful bind closes once, starts
once, shuts the live server down and increments the generation. -/
theorem material_reload_one_close_one_start_witness :
    ∃ r' eff,
      handleEvent rRunning (.reload (some sp9090)) parse0 none =
        some (r', eff) ∧
      eff.closeCalls = 1 ∧ eff.startCalls = 1 ∧ eff.doneSignals = 0 ∧
      eff.shutdowns = (if rRunning.server = none then 0 else 1) ∧
      (none = (none : Option String) →
        r'.startNum = rRunning.startNum + 1 ∧ r'.state = .stateRunning) ∧
      (∀ e, (none : Option String) = some e →
        r'.startNum = rRunning.startNum ∧ r'.state = .stateFailed) :=
  material_reload_one_close_one_start rRunning sp8080 sp9090 parse0 none rfl
    rfl (by decide)

/-- C6 counterexample: after a successful first start currentSpec is
non-null, yet a reload carrying a null next configuration clears it to
null and closes the server — while not acting as a close request (no done
signal, loop still running). -/
theorem nil_reload_clears_spec :
    run parse0 [⟨.reload (some sp8080), none⟩] = some rRunning ∧
    rRunning.spec = some sp8080 ∧
    handleEvent rRunning (.reload none) parse0 none =
      some ({ rRunning with spec := none }, ⟨1, 1, 0, 0⟩) ∧
    ({ rRunning with spec := none } : Runtime).spec = none ∧
    ({ rRunning with spec := none } : Runtime).loopExited = false := by
  refine ⟨by decide, rfl, by decide, rfl, rfl⟩

/-- C6 amended (corrected): once currentSpec is non-null it stays
non-null across every processed event other than a reload carrying a null
next configuration; such a null reload is logged as a defensive bug but
still clears currentSpec and closes the server. -/
theorem spec_stays_nonnull_without_nil_reload (parse : String → Option Nat)
    (r : Runtime) (i : Input) (r' : Runtime)
    (hspec : r.spec ≠ none) (hni : i.event ≠ .reload none)
    (hs : step parse r i = some r') : r'.spec ≠ none := by
  obtain ⟨ev, b⟩ := i
  by_cases hl : r.loopExited
  · simp only [step, handleEvent, hl, if_true, Option.map_some'] at hs
    obtain rfl := Option.some.inj hs
    exact hspec
  · rw [step, handleEvent.eq_def, if_neg hl] at hs
    cases ev with
    | start =>
      obtain ⟨⟨r1, eff⟩, hss, rfl⟩ := Option.map_eq_some'.mp hs
      rw [(startServer_result hss).1]
      exact hspec
    | checkFailed =>
      rw [handleEventCheckFailed] at hs
      by_cases hf : r.state = .stateFailed
      · rw [if_pos hf] at hs
        obtain ⟨⟨r1, eff⟩, hss, rfl⟩ := Option.map_eq_some'.mp hs
        rw [(startServer_result hss).1]
        exact hspec
      · rw [if_neg hf, Option.map_some'] at hs
        obtain rfl := Option.some.inj hs
        exact hspec
    | serveFailed sn e =>
      rw [Option.map_some'] at hs
      obtain rfl := Option.some.inj hs
      rw [handleEventServeFailed]
      by_cases hst : r.startNum > sn
      · rw [if_pos hst]; exact hspec
      · rw [if_neg hst]; exact hspec
    | reload ns =>
      cases ns with
      | none => exact absurd rfl hni
      | some ns' =>
        obtain ⟨⟨r1, eff⟩, hss, rfl⟩ := Option.map_eq_some'.mp hs
        rcases reload_result hss with
          rfl | ⟨ns2, hn, e2, hss2⟩ | ⟨hn, -⟩ | ⟨ns2, hn, rfl⟩
        · exact hspec
        · rw [(startServer_result hss2).1]
          simp
        · exact absurd hn (by simp)
        · simp
    | close =>
      rw [Option.map_some'] at hs
      obtain rfl := Option.some.inj hs
      rw [handleEventClose_fst]
      exact hspec

/-- Witness for the amended C6 at a concrete input: an honored
serve-failed report keeps the spec non-null. -/
theorem spec_stays_nonnull_without_nil_reload_witness :
    rFailedServe.spec ≠ none :=
  spec_stays_nonnull_without_nil_reload parse0 rRunning
    ⟨.serveFailed 1 "serve: connection reset", none⟩ rFailedServe
    (by decide) (by decide) (by decide)

/-- C7 (confirmed): with an empty or unparsable keep-alive timeout
string, startServer proceeds with the default timeout of 60 seconds
instead of failing, and when the bind succeeds the runtime ends running
with a server handle built on that default. -/
theorem keepAlive_defaults_on_bad_duration (r : Runtime) (sp : HTTPSpec)
    (parse : String → Option Nat) (hspec : r.spec = some sp)
    (hbad : sp.keepAliveTimeout = "" ∨ parse sp.keepAliveTimeout = none) :
    resolveKeepAliveTimeout sp.keepAliveTimeout parse = 60 * timeSecond ∧
    ∃ r' eff, startServer r parse none = some (r', eff) ∧
      r'.state = .stateRunning ∧
      r'.server = some { addrPort := sp.port
                         idleTimeout := 60 * timeSecond
                         keepAlivesEnabled := sp.keepAlive
                         tlsOn := sp.https
                         maxConns := sp.maxConnections } := by
  have hkat : resolveKeepAliveTimeout sp.keepAliveTimeout parse
      = 60 * timeSecond := by
    rcases hbad with hb | hb
    · rw [resolveKeepAliveTimeout, if_pos hb]; rfl
    · by_cases hk : sp.keepAliveTimeout = ""
      · rw [resolveKeepAliveTimeout, if_pos hk]; rfl
      · rw [resolveKeepAliveTimeout, if_neg hk, hb]; rfl
  refine ⟨hkat, setError (setState { r with
      server := some { addrPort := sp.port
                       idleTimeout :=
                         resolveKeepAliveTimeout sp.keepAliveTimeout parse
                       keepAlivesEnabled := sp.keepAlive
                       tlsOn := sp.https
                       maxConns := sp.maxConnections }
      startNum := r.startNum + 1 } .stateRunning) none,
    ⟨0, 0, 1, 0⟩, ?_, rfl, ?_⟩
  · simp [startServer, hspec, setError, setState]
  · simp [setError, setState, hkat]

/-- Witness for C7 at a concrete input: an unparsable duration string
("banana") still yields a running server with the 60-second default idle
timeout. -/
theorem keepAlive_defaults_on_bad_duration_witness :
    resolveKeepAliveTimeout spBadKAT.keepAliveTimeout parse0
      = 60 * timeSecond ∧
    ∃ r' eff,
      startServer { initRuntime with spec := some spBadKAT } parse0 none =
        some (r', eff) ∧
      r'.state = .stateRunning ∧
      r'.server = some { addrPort := spBadKAT.port
                         idleTimeout := 60 * timeSecond
                         keepAlivesEnabled := spBadKAT.keepAlive
                         tlsOn := spBadKAT.https
                         maxConns := spBadKAT.maxConnections } :=
  keepAlive_defaults_on_bad_duration { initRuntime with spec := some spBadKAT }
    spBadKAT parse0 rfl (Or.inr rfl)

/-- C8 counterexample: from the failed state reached by an honored serve
failure, the retry's bind-success path stores `running` before clearing
the error, so a status query running between startServer's two separate
atomic stores observes `running` paired with the stale non-empty
error. -/
theorem torn_running_with_stale_error :
    run parse0 [⟨.reload (some sp8080), none⟩,
      ⟨.serveFailed 1 "serve: connection reset", none⟩] = some rFailedServe ∧
    rFailedServe.state = .stateFailed ∧
    (StateType.stateRunning, some "serve: connection reset") ∈
      startServerStoreTrace rFailedServe none ∧
    (some "serve: connection reset" : Option String) ≠ some errNil := by
  refine ⟨by decide, rfl, by decide, by decide⟩

/-- C8 amended (corrected): at every event boundary a status query
observes no torn combination — a running state always comes with the
empty error text, and the closed state is never observed at all (so
closed-then-running is never observed); torn pairs are only visible
between startServer's two separate stores. -/
theorem status_sound_at_event_boundaries (parse : String → Option Nat)
    (evs : List Input) (r : Runtime) (hr : run parse evs = some r) :
    ((runtimeStatus r).state = .stateRunning →
      (runtimeStatus r).error = some "") ∧
    (runtimeStatus r).state ≠ .stateClosed := by
  have hb := reachable_boundaryInv hr
  exact ⟨fun h => hb.2.1 h, hb.1⟩

/-- Witness for the amended C8 at a concrete run ending in the running
state. -/
theorem status_sound_at_event_boundaries_witness :
    ((runtimeStatus rRunning).state = .stateRunning →
      (runtimeStatus rRunning).error = some "") ∧
    (runtimeStatus rRunning).state ≠ .stateClosed :=
  status_sound_at_event_boundaries parse0 [⟨.reload (some sp8080), none⟩]
    rRunning (by decide)

/-- C9 (confirmed): the error cell of every reachable runtime holds a
non-nil error value, so the status query can always call Error() on it;
and — failure messages being non-empty — the reported text is the empty
string exactly when no error is currently recorded (the runtime is not in
the failed state). -/
theorem error_cell_never_nil (parse : String → Option Nat)
    (evs : List Input) (r : Runtime) (hr : run parse evs = some r) :
    (∃ s, (runtimeStatus r).error = some s) ∧
    ((∀ i ∈ evs, goodMsgs i = true) →
      ((runtimeStatus r).error = some "" ↔ r.state ≠ .stateFailed)) := by
  have hb := reachable_boundaryInv hr
  constructor
  · cases he : r.err with
    | none => exact absurd he hb.2.2
    | some s => exact ⟨s, he⟩
  · intro hall
    exact reachable_errSentinel hall hr

/-- Witness for C9 at a concrete run: after a failed first bind the cell
holds the bind error and the text is non-empty in the failed state. -/
theorem error_cell_never_nil_witness :
    (∃ s, (runtimeStatus rFailedBind).error = some s) ∧
    ((∀ i ∈ [(⟨.reload (some sp8080),
        some "listen tcp :8080: address already in use"⟩ : Input)],
      goodMsgs i = true) →
      ((runtimeStatus rFailedBind).error = some "" ↔
        rFailedBind.state ≠ .stateFailed)) :=
  error_cell_never_nil parse0
    [⟨.reload (some sp8080), some "listen tcp :8080: address already in use"⟩]
    rFailedBind (by decide)

/-- C10 (confirmed): Prepare on a python config with a successful base
preparation fails exactly when the trimmed Version is neither "2" nor
"3"; versions "2"/"3" select interpreter commands python2/python3; a base
preparation failure is propagated; and the availability of the
interpreter binary never influences the result (an unavailable
interpreter only logs a warning, recorded in the Bool component). -/
theorem pythonPrepare_version_check (c : PythonConfig) (b : Bool) :
    ((∃ c2, (pythonPrepare c none b).1 = .ok c2) ↔
      (trimSpace c.version = "2" ∨ trimSpace c.version = "3")) ∧
    (trimSpace c.version = "2" →
      pythonPrepare c none b = (.ok ⟨"2", "python2"⟩, !b)) ∧
    (trimSpace c.version = "3" →
      pythonPrepare c none b = (.ok ⟨"3", "python3"⟩, !b)) ∧
    (∀ e, pythonPrepare c (some e) b = (.error e, false)) ∧
    ((pythonPrepare c none true).1 = (pythonPrepare c none false).1) := by
  by_cases h2 : trimSpace c.version = "2"
  · refine ⟨?_, ?_, ?_, ?_, ?_⟩
    · simp [pythonPrepare, h2]
    · intro _
      simp [pythonPrepare, h2]
    · intro h3
      rw [h2] at h3
      exact absurd h3 (by decide)
    · intro e
      rfl
    · simp [pythonPrepare, h2]
  · by_cases h3 : trimSpace c.version = "3"
    · refine ⟨?_, ?_, ?_, ?_, ?_⟩
      · simp [pythonPrepare, h3, h2]
      · intro h2'
        exact absurd h2' h2
      · intro _
        simp [pythonPrepare, h3, h2]
      · intro e
        rfl
      · simp [pythonPrepare, h3, h2]
    · refine ⟨?_, ?_, ?_, ?_, ?_⟩
      · simp [pythonPrepare, h2, h3]
      · intro h2'
        exact absurd h2' h2
      · intro h3'
        exact absurd h3' h3
      · intro e
        rfl
      · simp [pythonPrepare, h2, h3]

/-- Witness for C10 at concrete inputs: version " 3 " (with surrounding
whitespace, interpreter unavailable) prepares python3 with only a
warning; a base-preparation error is propagated. -/
theorem pythonPrepare_version_check_witness :
    (pythonPrepare ⟨" 3 ", "python"⟩ none false =
      (.ok ⟨"3", "python3"⟩, true)) ∧
    (pythonPrepare ⟨" 3 ", "python"⟩ (some "base failed") false =
      (.error "base failed", false)) :=
  ⟨(pythonPrepare_version_check ⟨" 3 ", "python"⟩ false).2.2.1 (by decide),
   (pythonPrepare_version_check ⟨" 3 ", "python"⟩ false).2.2.2.1 "base failed"⟩
